import Mathlib

/-!
Verification of the core pipeline of a Discogs vinyl-collection sorter.

This file gives a shallow embedding, in Lean 4, of the pure core of the
repository (`src/core/sorting.py`, `src/core/api.py`, `src/autosort_gui.py`):
the LP/45/CD format classifier, the sort-key builder with its
last-name-first heuristics, the row sorting policies, the price cache
staleness logic, the API retry loop and the collection paginator.
Python strings are modelled as Lean `String` (lists of characters); the
ASCII-only helpers below mirror the exact Python string operations used by
the source (`str.strip`, `str.lower`, `in` substring test, `str.endswith`,
`re.split` on whitespace, ...).  Python `float` times, prices and sleep
durations are modelled as `ℚ`; catalog JSON dicts are modelled as
structures with `Option` fields for keys the upstream API may omit.
-/

/-! ## Python string primitives -/

/-- The whitespace characters stripped by Python `str.strip()` (ASCII range). -/
def pyIsSpace (c : Char) : Bool :=
  c = ' ' || c = '\t' || c = '\n' || c = '\r' || c = '\x0b' || c = '\x0c'

/-- Python `s.strip()` : drop leading and trailing whitespace. -/
def pyStrip (s : String) : String :=
  ⟨((s.data.dropWhile pyIsSpace).reverse.dropWhile pyIsSpace).reverse⟩

/-- Python `s.lower()` (ASCII letters; the source data is ASCII). -/
def pyLower (s : String) : String :=
  ⟨s.data.map Char.toLower⟩

/-- Substring test on character lists: does `pat` occur inside the list? -/
def listHasInfix (pat : List Char) : List Char → Bool
  | [] => pat.isEmpty
  | c :: rest => pat.isPrefixOf (c :: rest) || listHasInfix pat rest

/-- Python `pat in s` substring containment. -/
def strContains (s pat : String) : Bool :=
  listHasInfix pat.data s.data

/-- Python `s.endswith(suf)`. -/
def strEndsWith (s suf : String) : Bool :=
  suf.data.reverse.isPrefixOf s.data.reverse

/-- Python `s.startswith(pre)`. -/
def strStartsWith (s pre : String) : Bool :=
  pre.data.isPrefixOf s.data

/-- Python `t.replace(".", "").replace(" ", "")` used to normalize format
description tokens. -/
def removeDotsSpaces (s : String) : String :=
  ⟨s.data.filter (fun c => !(c = '.' || c = ' '))⟩

/-- Drop the first `n` characters (Python `s[n:]`). -/
def strDropChars (s : String) (n : Nat) : String :=
  ⟨s.data.drop n⟩

/-- Take the first `n` characters (Python `s[:n]`). -/
def strTakeChars (s : String) (n : Nat) : String :=
  ⟨s.data.take n⟩

/-! ## Format classifier (`src/core/sorting.py`)

A catalog item's `basic_information` dict is modelled by the fields the
classifier reads: the `formats` list, each entry carrying `name` and
`descriptions` (both possibly absent, matching `f.get(...) or ...` in the
source).  The Python code builds a *set* of normalized description tokens;
we keep the (possibly duplicated) list — every operation performed on the
set (membership, emptiness, `any`, intersection-nonemptiness) is
insensitive to duplication and order of the underlying list. -/

structure FormatEntry where
  name : Option String
  descriptions : Option (List String)
deriving DecidableEq

structure BasicInfo where
  formats : Option (List FormatEntry)
deriving DecidableEq

/-- `[f for f in (basic.get("formats") or []) if (f.get("name") or "").strip().lower() == "vinyl"]` -/
def vinyl_formats (b : BasicInfo) : List FormatEntry :=
  (b.formats.getD []).filter (fun f => pyLower (pyStrip (f.name.getD "")) == "vinyl")

/-- `{d.strip().lower() for d in (f.get("descriptions") or []) if d}` -/
def desc_set (f : FormatEntry) : List String :=
  ((f.descriptions.getD []).filter (fun d => d ≠ "")).map (fun d => pyLower (pyStrip d))

/-- The per-Vinyl-entry description sets computed inside `is_lp_33`. -/
def desc_sets (b : BasicInfo) : List (List String) :=
  (vinyl_formats b).map desc_set

/-- `_desc_set_has_33rpm` : heuristic deciding whether a set of description
tokens denotes 33 RPM. -/
def _desc_set_has_33rpm (descs : List String) : Bool :=
  if descs.isEmpty then false
  else
    let norm_tokens := descs.map removeDotsSpaces
    let has_combined := norm_tokens.any (fun t => strContains t "33" && strContains t "rpm")
    if has_combined then true
    else
      let has_33 := norm_tokens.any (fun t => strContains t "33")
      let has_rpm := norm_tokens.any (fun t => t == "rpm" || strEndsWith t "rpm")
      let has_lp_hint := norm_tokens.any (fun t => t == "lp" || t == "album")
      has_33 && (has_rpm || has_lp_hint)

/-- The 12-inch size tokens (the Python set literal repeats `12"` twice). -/
def size_tokens : List String := ["12\"", "12in", "12-inch"]

/-- The local `has_45_or_78` helper of the probable branch of `is_lp_33`. -/
def has_45_or_78 (s : List String) : Bool :=
  let norm := s.map removeDotsSpaces
  norm.any (fun t => strContains t "45") || norm.any (fun t => strContains t "78")

/-- `is_lp_33(basic, strict, probable)` : decide whether a release is a
33⅓ LP, under the default / strict / probable policies. -/
def is_lp_33 (b : BasicInfo) (strict : Bool := false) (probable : Bool := false) : Bool :=
  if (vinyl_formats b).isEmpty then false
  else if strict then
    (desc_sets b).any (fun s => (s.contains "lp" || s.contains "album") && _desc_set_has_33rpm s)
  else if probable then
    (desc_sets b).any (fun s => (s.contains "lp" || s.contains "album") && !(has_45_or_78 s))
  else
    (desc_sets b).any (fun s =>
      (s.contains "lp" || s.contains "album")
        || (_desc_set_has_33rpm s && s.any (fun t => size_tokens.contains t)))

/-- `is_vinyl_45(basic)` : 7-inch 45 RPM vinyl singles. -/
def is_vinyl_45 (b : BasicInfo) : Bool :=
  if (vinyl_formats b).isEmpty then false
  else
    (vinyl_formats b).any (fun f =>
      let descs := desc_set f
      descs.any (fun t => ["7\"", "7in", "7-inch"].contains t)
        && descs.any (fun d => strContains d "45" && strContains d "rpm"))

/-- `is_cd_format(basic)` : CD or CDr formats. -/
def is_cd_format (b : BasicInfo) : Bool :=
  (b.formats.getD []).any (fun f =>
    let name := pyLower (pyStrip (f.name.getD ""))
    name == "cd" || name == "cdr")

/-! Helper lemmas about the classifier. -/

theorem vinyl_formats_ne_nil_of_desc_sets {b : BasicInfo} {l : List (List String)}
    (h : desc_sets b = l) (hl : l ≠ []) : (vinyl_formats b).isEmpty = false := by
  unfold desc_sets at h
  cases hvf : vinyl_formats b with
  | nil => rw [hvf] at h; simp at h; exact absurd h hl
  | cons f fs => simp

/-- C2: Under the default policy (strict=false, probable=false) an item whose
Vinyl description set is exactly {"lp"} (the lowered form of {"LP"}, which
carries no 33 RPM evidence) is accepted, while the strict policy rejects
it; and in general the strict policy accepts exactly the items having some
Vinyl entry whose description set contains "lp" or "album" and satisfies
the `_desc_set_has_33rpm` heuristic — in particular strict acceptance
requires that heuristic. -/
theorem is_lp_33_default_vs_strict (b : BasicInfo) (hb : desc_sets b = [["lp"]]) :
    (is_lp_33 b false false = true ∧ is_lp_33 b true false = false)
    ∧ (∀ (b' : BasicInfo) (p' : Bool), is_lp_33 b' true p' = true →
        (desc_sets b').any
          (fun s => (s.contains "lp" || s.contains "album") && _desc_set_has_33rpm s) = true) := by
  constructor
  · have hvf : (vinyl_formats b).isEmpty = false :=
      vinyl_formats_ne_nil_of_desc_sets hb (by simp)
    constructor
    · unfold is_lp_33
      rw [hvf, hb]
      decide
    · unfold is_lp_33
      rw [hvf, hb]
      decide
  · intro b' p' h
    unfold is_lp_33 at h
    by_cases hvf : (vinyl_formats b').isEmpty = true
    · rw [hvf] at h; simp at h
    · rw [Bool.not_eq_true] at hvf
      rw [hvf] at h
      simpa using h

/-- C2, witness: the concrete scenario item with a single Vinyl entry
described {"LP"}. -/
theorem is_lp_33_default_vs_strict_witness :
    is_lp_33 ⟨some [⟨some "Vinyl", some ["LP"]⟩]⟩ false false = true
    ∧ is_lp_33 ⟨some [⟨some "Vinyl", some ["LP"]⟩]⟩ true false = false :=
  (is_lp_33_default_vs_strict ⟨some [⟨some "Vinyl", some ["LP"]⟩]⟩ (by decide)).1

/-- C3: The probable policy accepts exactly the items having some Vinyl entry
whose description set contains "lp" or "album" and has no explicit 45/78
token (per the code's `has_45_or_78` normalization); in particular the
concrete Vinyl item with descriptions {"LP", "45 RPM"} is rejected. -/
theorem is_lp_33_probable_spec :
    (∀ b : BasicInfo, is_lp_33 b false true = true ↔
      (desc_sets b).any
        (fun s => (s.contains "lp" || s.contains "album") && !(has_45_or_78 s)) = true)
    ∧ is_lp_33 ⟨some [⟨some "Vinyl", some ["LP", "45 RPM"]⟩]⟩ false true = false := by
  constructor
  · intro b
    unfold is_lp_33
    by_cases hvf : (vinyl_formats b).isEmpty = true
    · rw [hvf]
      simp only [if_true]
      constructor
      · intro h; exact absurd h (by simp)
      · intro h
        have : desc_sets b = [] := by
          unfold desc_sets
          rw [List.isEmpty_iff] at hvf
          rw [hvf]
          rfl
        rw [this] at h
        simp at h
    · rw [Bool.not_eq_true] at hvf
      rw [hvf]
      simp
  · decide

/-- C3, witness: a plain Vinyl LP item with no speed token is accepted
under the probable policy, via the characterization. -/
theorem is_lp_33_probable_spec_witness :
    is_lp_33 ⟨some [⟨some "Vinyl", some ["LP"]⟩]⟩ false true = true :=
  (is_lp_33_probable_spec.1 ⟨some [⟨some "Vinyl", some ["LP"]⟩]⟩).mpr (by decide)

/-- C10: Classification policies are monotone toward the default: anything
accepted under strict or under probable is accepted under the default
policy. -/
theorem is_lp_33_policies_monotone (b : BasicInfo) :
    (is_lp_33 b true false = true → is_lp_33 b false false = true)
    ∧ (is_lp_33 b false true = true → is_lp_33 b false false = true) := by
  unfold is_lp_33
  by_cases hvf : (vinyl_formats b).isEmpty = true
  · rw [hvf]; simp
  · rw [Bool.not_eq_true] at hvf
    rw [hvf]
    simp only [Bool.false_eq_true, if_false, if_true]
    constructor
    · intro h
      rw [List.any_eq_true] at h ⊢
      obtain ⟨s, hs, hp⟩ := h
      refine ⟨s, hs, ?_⟩
      rw [Bool.and_eq_true] at hp
      rw [hp.1]
      simp
    · intro h
      rw [List.any_eq_true] at h ⊢
      obtain ⟨s, hs, hp⟩ := h
      refine ⟨s, hs, ?_⟩
      rw [Bool.and_eq_true] at hp
      rw [hp.1]
      simp

/-- C10, witness: a strict-accepted item is also default-accepted. -/
theorem is_lp_33_policies_monotone_witness :
    is_lp_33 ⟨some [⟨some "Vinyl", some ["LP", "33 RPM"]⟩]⟩ true false = true
    ∧ is_lp_33 ⟨some [⟨some "Vinyl", some ["LP", "33 RPM"]⟩]⟩ false false = true :=
  ⟨by decide,
   (is_lp_33_policies_monotone ⟨some [⟨some "Vinyl", some ["LP", "33 RPM"]⟩]⟩).1 (by decide)⟩

/-! ## Release rows and sorting policies (`src/core/models.py`, `src/core/sorting.py`)

`ReleaseRow` mirrors the dataclass; Python floats (prices) become `ℚ`.
Python `sorted(rows, key=k)` sorts by tuple comparison on the key; we model
it with `List.mergeSort` under the boolean comparator "key ≤ key"
(lexicographic tuple order, `False < True` for booleans as in Python). -/

structure ReleaseRow where
  artist_display : String
  title : String
  year : Option Int
  label : String
  catno : String
  country : String
  format_str : String
  discogs_url : String
  notes : String
  release_id : Option Int := none
  master_id : Option Int := none
  sort_artist : String := ""
  sort_title : String := ""
  median_price : Option ℚ := none
  lowest_price : Option ℚ := none
  num_for_sale : Option Int := none
  price_currency : String := ""
  thumb_url : String := ""
  cover_image_url : String := ""

/-- `is_various_artist(artist_disp)`. -/
def is_various_artist (a : String) : Bool :=
  let s := pyLower (pyStrip a)
  s == "various" || s == "various artists"

/-- `sort_key_price_desc(r) = (r.lowest_price is None, -(r.lowest_price or 0))`. -/
def sort_key_price_desc (r : ReleaseRow) : Bool × ℚ :=
  (r.lowest_price.isNone, -(r.lowest_price.getD 0))

/-- `sort_key_price_asc(r) = (r.lowest_price is None, r.lowest_price or 0)`. -/
def sort_key_price_asc (r : ReleaseRow) : Bool × ℚ :=
  (r.lowest_price.isNone, r.lowest_price.getD 0)

/-- `r.year or 9999` : Python `or` treats both `None` and `0` as falsy. -/
def pyYearOr9999 (v : Option Int) : Int :=
  match v with
  | none => 9999
  | some y => if y = 0 then 9999 else y

/-- `sort_key_year(r)`. -/
def sort_key_year (r : ReleaseRow) : Int × String × String :=
  (pyYearOr9999 r.year, r.sort_artist, r.sort_title)

/-- `sort_key_general(r, various_policy, sort_by)`; the Python `9999`
fallback here tests `isinstance(r.year, int)`, so a year of `0` is kept. -/
def sort_key_general (r : ReleaseRow) (various_policy sort_by : String) :
    Int × String × String × Int × String :=
  let is_var := is_various_artist r.artist_display
  let var_flag : Int := if various_policy = "last" ∧ is_var = true then 1 else 0
  let year_val : Int := match r.year with | some y => y | none => 9999
  if various_policy = "title" ∧ is_var = true then
    (var_flag, r.sort_title, r.sort_title, year_val, r.sort_artist)
  else if sort_by = "title" then
    (var_flag, r.sort_title, r.sort_artist, year_val, r.sort_title)
  else
    (var_flag, r.sort_artist, r.sort_title, year_val, r.sort_artist)

/-- Python tuple `≤` on a `(bool, float)` key (`False < True`). -/
def leBoolRat (k1 k2 : Bool × ℚ) : Bool :=
  if k1.1 = k2.1 then decide (k1.2 ≤ k2.2) else decide (k1.1 = false)

/-- Python tuple `≤` on an `(int, str, str)` key. -/
def leYearKey (k1 k2 : Int × String × String) : Bool :=
  if k1.1 = k2.1 then
    (if k1.2.1 = k2.2.1 then decide (k1.2.2 ≤ k2.2.2) else decide (k1.2.1 < k2.2.1))
  else decide (k1.1 < k2.1)

/-- Python tuple `≤` on an `(int, str, str, int, str)` key. -/
def leGenKey (k1 k2 : Int × String × String × Int × String) : Bool :=
  if k1.1 = k2.1 then
    (if k1.2.1 = k2.2.1 then
      (if k1.2.2.1 = k2.2.2.1 then
        (if k1.2.2.2.1 = k2.2.2.2.1 then decide (k1.2.2.2.2 ≤ k2.2.2.2.2)
         else decide (k1.2.2.2.1 < k2.2.2.2.1))
       else decide (k1.2.2.1 < k2.2.2.1))
     else decide (k1.2.1 < k2.2.1))
  else decide (k1.1 < k2.1)

/-- `sort_rows(rows, various_policy, sort_by)` : stable sort under the
selected policy's key. -/
def sort_rows (rows : List ReleaseRow) (various_policy : String)
    (sort_by : String := "artist") : List ReleaseRow :=
  if sort_by = "price_desc" then
    List.mergeSort rows (fun a b => leBoolRat (sort_key_price_desc a) (sort_key_price_desc b))
  else if sort_by = "price_asc" then
    List.mergeSort rows (fun a b => leBoolRat (sort_key_price_asc a) (sort_key_price_asc b))
  else if sort_by = "year" then
    List.mergeSort rows (fun a b => leYearKey (sort_key_year a) (sort_key_year b))
  else
    List.mergeSort rows (fun a b =>
      leGenKey (sort_key_general a various_policy sort_by) (sort_key_general b various_policy sort_by))

/-! Comparator facts needed for the price-sort claim. -/

theorem leBoolRat_trans (k1 k2 k3 : Bool × ℚ) (h12 : leBoolRat k1 k2 = true)
    (h23 : leBoolRat k2 k3 = true) : leBoolRat k1 k3 = true := by
  obtain ⟨b1, q1⟩ := k1
  obtain ⟨b2, q2⟩ := k2
  obtain ⟨b3, q3⟩ := k3
  cases b1 <;> cases b2 <;> cases b3 <;>
    simp_all [leBoolRat] <;> exact le_trans h12 h23

theorem leBoolRat_total (k1 k2 : Bool × ℚ) : (leBoolRat k1 k2 || leBoolRat k2 k1) = true := by
  obtain ⟨b1, q1⟩ := k1
  obtain ⟨b2, q2⟩ := k2
  cases b1 <;> cases b2 <;> simp_all [leBoolRat] <;> exact le_total q1 q2

theorem leBoolRat_none_mono {k1 k2 : Bool × ℚ} (h : leBoolRat k1 k2 = true)
    (h1 : k1.1 = true) : k2.1 = true := by
  unfold leBoolRat at h
  by_cases he : k1.1 = k2.1
  · rw [← he, h1]
  · rw [if_neg he, h1] at h
    simp at h

/-- Rows sorted by a `(is-missing-price, value)` key leave all missing-price
rows after all known-price rows. -/
theorem mergeSort_none_last (key : ReleaseRow → Bool × ℚ)
    (hkey : ∀ r, (key r).1 = r.lowest_price.isNone) (rows : List ReleaseRow) :
    (List.mergeSort rows (fun a b => leBoolRat (key a) (key b))).Pairwise
      (fun a b => a.lowest_price = none → b.lowest_price = none) := by
  have hs := @List.sorted_mergeSort ReleaseRow (fun a b => leBoolRat (key a) (key b))
    (fun a b c hab hbc => leBoolRat_trans _ _ _ hab hbc)
    (fun a b => leBoolRat_total _ _) rows
  refine hs.imp ?_
  intro a b hab hnone
  have h1 : (key a).1 = true := by rw [hkey a, hnone]; rfl
  have h2 := leBoolRat_none_mono hab h1
  rw [hkey b] at h2
  exact Option.isNone_iff_eq_none.mp h2

/-- C7: For both price sort policies, every row with an unknown
`lowest_price` is placed strictly after every row with a known price: in
the output of `sort_rows` under `price_asc` or `price_desc`, whenever a
row with `lowest_price = none` precedes another row, that later row also
has `lowest_price = none`. -/
theorem sort_rows_price_none_last (rows : List ReleaseRow) (vp sb : String)
    (h : sb = "price_asc" ∨ sb = "price_desc") :
    (sort_rows rows vp sb).Pairwise
      (fun a b => a.lowest_price = none → b.lowest_price = none) := by
  rcases h with h | h <;> subst h <;> unfold sort_rows
  · rw [if_neg (by decide), if_pos rfl]
    exact mergeSort_none_last sort_key_price_asc (fun r => rfl) rows
  · rw [if_pos rfl]
    exact mergeSort_none_last sort_key_price_desc (fun r => rfl) rows

/-- C7, witness: a two-row list (one priced, one unpriced) sorted
ascending. -/
theorem sort_rows_price_none_last_witness :
    (sort_rows
      [{ artist_display := "A", title := "T1", year := none, label := "", catno := "",
         country := "", format_str := "", discogs_url := "", notes := "", lowest_price := none },
       { artist_display := "B", title := "T2", year := none, label := "", catno := "",
         country := "", format_str := "", discogs_url := "", notes := "", lowest_price := some 5 }]
      "normal" "price_asc").Pairwise
      (fun a b => a.lowest_price = none → b.lowest_price = none) :=
  sort_rows_price_none_last _ "normal" "price_asc" (Or.inl rfl)

/-! ## Price cache (`src/autosort_gui.py`, `CollectionCache`)

The persisted cache JSON is `{releases: {<id>: {cached_at, prices:
{<currency>: {lowest_price, num_for_sale, fetched_at}}}}}`.  Dicts become
association lists with string keys; timestamps (Python `time.time()`
floats) become `ℚ`.  `set_price` always writes all three price fields, so
a price entry is modelled as a record with a mandatory `fetched_at` (the
code's `.get("fetched_at", 0)` default never fires on entries it wrote
itself). -/

/-- Python dict lookup on a string-keyed association list. -/
def lookupStr {β : Type} (l : List (String × β)) (k : String) : Option β :=
  (l.find? (fun p => p.1 == k)).map (fun p => p.2)

structure PriceData where
  lowest_price : Option ℚ
  num_for_sale : Option Int
  fetched_at : ℚ
deriving DecidableEq

structure CacheRelease where
  prices : List (String × PriceData)
deriving DecidableEq

structure CollectionCache where
  releases : List (String × CacheRelease)
deriving DecidableEq

/-- `PRICE_CACHE_MAX_AGE_SECONDS = 86400 * 7` : 7 days. -/
def PRICE_CACHE_MAX_AGE_SECONDS : ℚ := 86400 * 7

/-- `CollectionCache.get_price(release_id, currency)` evaluated at time
`now`; returns `(lowest_price, num_for_sale, is_stale)`. -/
def get_price (c : CollectionCache) (now : ℚ) (release_id : Nat) (currency : String) :
    Option ℚ × Option Int × Bool :=
  match lookupStr c.releases (toString release_id) with
  | none => (none, none, true)
  | some release =>
    match lookupStr release.prices currency with
    | none => (none, none, true)
    | some price_data =>
      (price_data.lowest_price, price_data.num_for_sale,
       decide (now - price_data.fetched_at > PRICE_CACHE_MAX_AGE_SECONDS))

/-- C1: `get_price` staleness: a stored entry younger than 7 days
(`now - fetched_at ≤ 604800` seconds) reports `is_stale = false`; an entry
past the threshold (`now - fetched_at > 604800`, in particular one second
past) reports `is_stale = true`; and a missing entry — whether the release
id is absent or the currency has no entry under it — always reports
`(none, none, true)`. -/
theorem get_price_staleness (c : CollectionCache) (now : ℚ) (rid : Nat) (cur : String) :
    (∀ rel pd, lookupStr c.releases (toString rid) = some rel →
        lookupStr rel.prices cur = some pd →
        ((now - pd.fetched_at ≤ 604800 → (get_price c now rid cur).2.2 = false)
          ∧ (now - pd.fetched_at > 604800 → (get_price c now rid cur).2.2 = true)))
    ∧ (lookupStr c.releases (toString rid) = none →
        get_price c now rid cur = (none, none, true))
    ∧ (∀ rel, lookupStr c.releases (toString rid) = some rel →
        lookupStr rel.prices cur = none →
        get_price c now rid cur = (none, none, true)) := by
  refine ⟨?_, ?_, ?_⟩
  · intro rel pd h1 h2
    constructor
    · intro hfresh
      unfold get_price
      rw [h1]
      dsimp only
      rw [h2]
      dsimp only
      have : ¬ (now - pd.fetched_at > PRICE_CACHE_MAX_AGE_SECONDS) := by
        unfold PRICE_CACHE_MAX_AGE_SECONDS
        norm_num
        linarith
      simp [this]
    · intro hstale
      unfold get_price
      rw [h1]
      dsimp only
      rw [h2]
      dsimp only
      have : now - pd.fetched_at > PRICE_CACHE_MAX_AGE_SECONDS := by
        unfold PRICE_CACHE_MAX_AGE_SECONDS
        norm_num
        linarith
      simp [this]
  · intro h1
    unfold get_price
    rw [h1]
  · intro rel h1 h2
    unfold get_price
    rw [h1]
    dsimp only
    rw [h2]

/-- C1, witness: one cached USD entry fetched at time 0, read at the
threshold (fresh), one second past it (stale), and at a missing release id
(stale). -/
theorem get_price_staleness_witness :
    (get_price ⟨[("7", ⟨[("USD", ⟨some 10, some 3, 0⟩)]⟩)]⟩ 604800 7 "USD").2.2 = false
    ∧ (get_price ⟨[("7", ⟨[("USD", ⟨some 10, some 3, 0⟩)]⟩)]⟩ 604801 7 "USD").2.2 = true
    ∧ get_price ⟨[("7", ⟨[("USD", ⟨some 10, some 3, 0⟩)]⟩)]⟩ 604801 9 "USD" = (none, none, true) := by
  refine ⟨?_, ?_, ?_⟩
  · exact ((get_price_staleness ⟨[("7", ⟨[("USD", ⟨some 10, some 3, 0⟩)]⟩)]⟩ 604800 7 "USD").1
      ⟨[("USD", ⟨some 10, some 3, 0⟩)]⟩ ⟨some 10, some 3, 0⟩ (by decide) (by decide)).1
      (by norm_num)
  · exact ((get_price_staleness ⟨[("7", ⟨[("USD", ⟨some 10, some 3, 0⟩)]⟩)]⟩ 604801 7 "USD").1
      ⟨[("USD", ⟨some 10, some 3, 0⟩)]⟩ ⟨some 10, some 3, 0⟩ (by decide) (by decide)).2
      (by norm_num)
  · exact (get_price_staleness ⟨[("7", ⟨[("USD", ⟨some 10, some 3, 0⟩)]⟩)]⟩ 604801 9 "USD").2.1
      (by decide)

/-! ## API client (`src/core/api.py`)

`api_get` is driven by the sequence of per-attempt outcomes the network
produces: attempt `i` either yields an HTTP response (status, optional
`Retry-After` header, body) or raises.  The `Retry-After` header is
modelled post-parse: `some (some v)` = header present and `float()`
parses it to `v`; `some none` = present but unparsable; `none` = absent.
Sleep durations (Python floats) are returned as the `ℚ` trace of calls to
`time.sleep`. -/

/-- One attempt's outcome as seen by `api_get`. -/
inductive Outcome where
  /-- An HTTP response was received. -/
  | http (status : Nat) (retryAfter : Option (Option ℚ)) (body : String)
  /-- A `requests.RequestException` (transport error) was raised. -/
  | netErr
  /-- Any other exception was raised (re-raised unchanged by `api_get`). -/
  | otherErr
deriving DecidableEq

/-- The result of `api_get`. -/
inductive ApiResult where
  /-- Successful response (status < 400). -/
  | success (status : Nat) (body : String)
  /-- `RuntimeError(f"Discogs API error {status}: {text[:200]}")` — fatal
  non-retryable status, raised immediately with the truncated body. -/
  | fatal (status : Nat) (truncatedBody : String)
  /-- Retries exhausted; the last error was `RuntimeError(f"Transient API error {status}")`. -/
  | transient (status : Nat)
  /-- Retries exhausted; the last error was a transport exception. -/
  | netFail
  /-- `RuntimeError("Discogs API request failed after retries")` (no attempt ran). -/
  | exhausted
  /-- A non-transport exception propagated unchanged. -/
  | propagated
deriving DecidableEq

/-- `_should_retry(status)` : 429 or any 5xx. -/
def _should_retry (status : Nat) : Bool :=
  status == 429 || (500 ≤ status && status < 600)

/-- `_retry_sleep_seconds(resp, attempt, backoff)` : `Retry-After` when
present and parsable, else capped exponential backoff. -/
def _retry_sleep_seconds (retryAfter : Option (Option ℚ)) (attempt : Nat) (backoff : ℚ) : ℚ :=
  match retryAfter with
  | some (some v) => v
  | _ => min (backoff * 2 ^ attempt) 10

/-- The retry loop body of `api_get` (`for attempt in range(retries)`),
accumulating the trace of sleeps. -/
def api_get_loop (backoff : ℚ) (outcomes : Nat → Outcome) (attempt : Nat) :
    Nat → Option ApiResult → List ℚ × ApiResult
  | 0, lastError => ([], lastError.getD .exhausted)
  | remaining + 1, _lastError =>
    match outcomes attempt with
    | .http status retryAfter body =>
      if status < 400 then ([], .success status body)
      else if _should_retry status then
        let d := _retry_sleep_seconds retryAfter attempt backoff
        let rest := api_get_loop backoff outcomes (attempt + 1) remaining (some (.transient status))
        (d :: rest.1, rest.2)
      else ([], .fatal status (strTakeChars body 200))
    | .netErr =>
      let d := min (backoff * 2 ^ attempt) 10
      let rest := api_get_loop backoff outcomes (attempt + 1) remaining (some .netFail)
      (d :: rest.1, rest.2)
    | .otherErr => ([], .propagated)

/-- `api_get(url, retries=3, backoff=1.0)` : returns the sleep trace and
the final result. -/
def api_get (outcomes : Nat → Outcome) (retries : Nat := 3) (backoff : ℚ := 1) :
    List ℚ × ApiResult :=
  api_get_loop backoff outcomes 0 retries none

/-- C8: The `api_get` retry policy.  (1) On a 429/5xx response with budget
remaining, one sleep is emitted — its duration taken from a parsable
`Retry-After` header when present and otherwise `min(backoff * 2^attempt,
10)` — and the loop proceeds to the next attempt recording the transient
error.  (2) Any other response with status ≥ 400 stops immediately: no
sleep, the error carries the status and the body truncated to 200
characters, and later outcomes are never consulted.  (3) If every attempt
returns a retryable status, exactly `retries` attempts run (the default
budget is 3), each sleeps once, and the transient error of the last
attempt is raised. -/
theorem api_get_retry_policy (backoff : ℚ) (outcomes : Nat → Outcome)
    (attempt remaining : Nat) (lastError : Option ApiResult)
    (status : Nat) (retryAfter : Option (Option ℚ)) (body : String)
    (hout : outcomes attempt = .http status retryAfter body) :
    (_should_retry status = true →
      api_get_loop backoff outcomes attempt (remaining + 1) lastError =
        (_retry_sleep_seconds retryAfter attempt backoff ::
          (api_get_loop backoff outcomes (attempt + 1) remaining (some (.transient status))).1,
         (api_get_loop backoff outcomes (attempt + 1) remaining (some (.transient status))).2)
      ∧ (∀ v, retryAfter = some (some v) → _retry_sleep_seconds retryAfter attempt backoff = v)
      ∧ (retryAfter = none →
          _retry_sleep_seconds retryAfter attempt backoff = min (backoff * 2 ^ attempt) 10))
    ∧ (400 ≤ status → _should_retry status = false →
        api_get_loop backoff outcomes attempt (remaining + 1) lastError =
          ([], .fatal status (strTakeChars body 200)))
    ∧ (∀ st ra bd r, _should_retry st = true →
        (api_get (fun _ => .http st ra bd) r backoff).1.length = r
        ∧ (api_get (fun _ => .http st ra bd) r backoff).2 =
            (if r = 0 then .exhausted else .transient st))
    ∧ (∀ st ra bd, _should_retry st = true →
        (api_get (fun _ => .http st ra bd) 3 backoff).1.length = 3) := by
  have hbudget : ∀ (st : Nat) (ra : Option (Option ℚ)) (bd : String),
      _should_retry st = true → ∀ (r a : Nat) (le : Option ApiResult),
      (api_get_loop backoff (fun _ => .http st ra bd) a r le).1.length = r
      ∧ (api_get_loop backoff (fun _ => .http st ra bd) a r le).2 =
          (if r = 0 then le.getD .exhausted else .transient st) := by
    intro st ra bd hretry r
    induction r with
    | zero => intro a le; simp [api_get_loop]
    | succ n ih =>
      intro a le
      have hlt : ¬ st < 400 := by
        rcases Bool.or_eq_true .. |>.mp hretry with h | h
        · have : st = 429 := by simpa using h
          omega
        · rw [Bool.and_eq_true] at h
          have h5 : 500 ≤ st := by simpa using h.1
          omega
      unfold api_get_loop
      dsimp only
      rw [if_neg hlt, if_pos hretry]
      have hrec := ih (a + 1) (some (.transient st))
      refine ⟨by simp [hrec.1], ?_⟩
      rw [hrec.2]
      cases n <;> simp
  refine ⟨?_, ?_, ?_, ?_⟩
  · intro hretry
    have hlt : ¬ status < 400 := by
      rcases Bool.or_eq_true .. |>.mp hretry with h | h
      · have : status = 429 := by simpa using h
        omega
      · rw [Bool.and_eq_true] at h
        have h5 : 500 ≤ status := by simpa using h.1
        omega
    refine ⟨?_, ?_, ?_⟩
    · conv_lhs => rw [api_get_loop]
      dsimp only
      rw [hout]
      dsimp only
      rw [if_neg hlt, if_pos hretry]
    · intro v hv; rw [hv]; rfl
    · intro hv; rw [hv]; rfl
  · intro h400 hnoretry
    have hlt : ¬ status < 400 := by omega
    unfold api_get_loop
    dsimp only
    rw [hout]
    dsimp only
    rw [if_neg hlt, if_neg (by rw [hnoretry]; exact Bool.false_ne_true)]
  · intro st ra bd r hretry
    have h := hbudget st ra bd hretry r 0 none
    unfold api_get
    refine ⟨h.1, ?_⟩
    rw [h.2]
    cases r <;> rfl
  · intro st ra bd hretry
    unfold api_get
    exact (hbudget st ra bd hretry 3 0 none).1

/-- C8, witness: a server that always answers 500 with no `Retry-After`
header; with the default budget of 3 the call sleeps three times
(1, 2, 4 seconds at backoff 1) and raises the transient error; a 404
stops immediately with the truncated body. -/
theorem api_get_retry_policy_witness :
    (api_get_loop 1 (fun _ => .http 500 none "boom") 0 3 none =
      (_retry_sleep_seconds none 0 1 ::
        (api_get_loop 1 (fun _ => .http 500 none "boom") 1 2 (some (.transient 500))).1,
       (api_get_loop 1 (fun _ => .http 500 none "boom") 1 2 (some (.transient 500))).2))
    ∧ api_get_loop 1 (fun _ => .http 404 none "missing") 0 3 none =
        ([], .fatal 404 (strTakeChars "missing" 200))
    ∧ (api_get (fun _ => .http 500 none "boom") 3 1).1.length = 3 := by
  have h := api_get_retry_policy 1 (fun _ => .http 500 none "boom") 0 2 none
    500 none "boom" rfl
  have h404 := api_get_retry_policy 1 (fun _ => .http 404 none "missing") 0 2 none
    404 none "missing" rfl
  exact ⟨(h.1 (by decide)).1,
         h404.2.1 (by omega) (by decide),
         h.2.2.2 500 none "boom" (by decide)⟩

/-! ## Collection pagination (`src/core/api.py`, `iterate_collection`)

Each page request returns the parsed `pagination.pages` count (the code's
`int(data.get("pagination", {}).get("pages", 1))`, defaulting handled
upstream) together with the `releases` array.  The loop yields all items
of pages `1, 2, ...`, reading the declared total only from the first
response; it stops after page `p` once `p ≥ max_pages` (when the cap is
truthy: not `None` and nonzero) or `p ≥ total_pages` (when the declared
total is nonzero).  If neither bound is truthy the Python loop never
terminates; the model returns `none` for that case. -/

structure PageResp (α : Type) where
  pages : Nat
  releases : List α

/-- A Python-truthy bound: `None` and `0` impose no bound. -/
def truthyBound : Option Nat → Option Nat
  | none => none
  | some 0 => none
  | some k => some k

/-- The number of pages the `while True` loop processes, given the
declared total from the first response and the caller's page cap; `none`
when the loop does not terminate. -/
def pages_processed (total_pages : Nat) (max_pages : Option Nat) : Option Nat :=
  match truthyBound max_pages, truthyBound (some total_pages) with
  | none, none => none
  | some m, none => some m
  | none, some t => some t
  | some m, some t => some (min m t)

/-- `iterate_collection(per_page, max_pages)` : the concatenated items of
all processed pages (`none` models non-termination). -/
def iterate_collection {α : Type} (fetch : Nat → PageResp α) (max_pages : Option Nat) :
    Option (List α) :=
  match pages_processed (fetch 1).pages max_pages with
  | none => none
  | some n => some (((List.range n).map (fun i => (fetch (i + 1)).releases)).flatten)

set_option maxRecDepth 4000 in
/-- C9: `iterate_collection` reads the declared page total from the first
response and yields the items of exactly `min(total pages, page cap)`
pages when both bounds are positive; in the concrete scenario of 3
declared pages of 100 items each and a cap of 2, exactly 200 items are
yielded. -/
theorem iterate_collection_page_cap {α : Type} (fetch : Nat → PageResp α)
    (cap : Nat) (hcap : 0 < cap) (htp : 0 < (fetch 1).pages) :
    iterate_collection fetch (some cap) =
      some (((List.range (min cap (fetch 1).pages)).map (fun i => (fetch (i + 1)).releases)).flatten)
    ∧ ((iterate_collection (fun _ => PageResp.mk 3 (List.range 100)) (some 2)).getD []).length
        = 200 := by
  constructor
  · unfold iterate_collection pages_processed truthyBound
    cases cap with
    | zero => omega
    | succ c =>
      cases htp' : (fetch 1).pages with
      | zero => omega
      | succ t => simp
  · decide

/-- C9, witness: the 3-pages-of-100 scenario with cap 2 yields the first
two pages' items. -/
theorem iterate_collection_page_cap_witness :
    iterate_collection (fun _ => PageResp.mk 3 (List.range 100)) (some 2) =
      some (((List.range (min 2 (3:Nat))).map
        (fun _ => List.range 100)).flatten) := by
  have h := (iterate_collection_page_cap
    (fun _ => (PageResp.mk 3 (List.range 100) : PageResp Nat))
    2 (by decide) (by decide)).1
  simpa using h

/-! ## Sort-key builder (`src/core/sorting.py`)

String normalization and the last-name-first heuristics.  The apostrophe
character is written `Char.ofNat 39`; `normalize_apostrophes` in the
source replaces the ASCII apostrophe by itself (`.replace("'", "'")`) and
is therefore the identity function. -/

/-- The ASCII apostrophe. -/
def aposChar : Char := Char.ofNat 39

/-- The ASCII apostrophe as a one-character string. -/
def aposStr : String := ⟨[aposChar]⟩

/-- `strip_discogs_numeric_suffix(name)` : remove a trailing
`\s*\(<digits>\)` group, then strip (`TRAILING_NUMERIC_RE.sub("", name).strip()`). -/
def strip_discogs_numeric_suffix (name : String) : String :=
  match name.data.reverse with
  | ')' :: rest =>
    (match rest.takeWhile Char.isDigit, rest.dropWhile Char.isDigit with
     | _ :: _, '(' :: rest3 => pyStrip ⟨(rest3.dropWhile pyIsSpace).reverse⟩
     | _, _ => pyStrip name)
  | _ => pyStrip name

/-- `normalize_apostrophes(s)` : the source replaces the plain apostrophe
with itself, so this is the identity on strings. -/
def normalize_apostrophes (s : String) : String := s

/-- Collapse every whitespace run to a single space (`re.sub(r"\s+", " ", ·)`). -/
def collapseWs (l : List Char) : List Char :=
  ((l.foldl (fun (acc : List Char × Bool) c =>
    if pyIsSpace c then
      ((if acc.2 then acc.1 else ' ' :: acc.1), true)
    else (c :: acc.1, false)) ([], false)).1).reverse

/-- `_normalize_exclude_name(s) = re.sub(r"\s+", " ", s.strip().lower())`. -/
def _normalize_exclude_name (s : String) : String :=
  ⟨collapseWs (pyLower (pyStrip s)).data⟩

/-- Everything before the first `/` or `,` (`re.split(r"[/,]", s)[0]`,
also `s.split("/")[0].split(",")[0]`). -/
def beforeSlashComma (s : String) : String :=
  ⟨s.data.takeWhile (fun c => !(c = '/' || c = ','))⟩

/-- Split on whitespace runs, producing the possibly-empty fields. -/
def splitWsGo : List Char → List Char → List String
  | [], acc => [⟨acc.reverse⟩]
  | c :: t, acc => if pyIsSpace c then ⟨acc.reverse⟩ :: splitWsGo t [] else splitWsGo t (c :: acc)

/-- `[t for t in re.split(r"\s+", s) if t]` : whitespace tokenization with
empty fields dropped. -/
def pyTokens (s : String) : List String :=
  (splitWsGo s.data []).filter (fun t => t ≠ "")

/-- The `band_adjectives` set of `is_band_like`. -/
def band_adjectives : List String :=
  ["big", "small", "little", "bad", "good", "great", "new", "old", "young",
   "black", "white", "blue", "red", "green", "wild", "sweet"]

/-- The `band_terms` set of `is_band_like`. -/
def band_terms : List String :=
  ["band", "trio", "quartet", "quintet", "sextet", "septet", "octet", "nonet",
   "orchestra", "ensemble", "choir", "chorale", "collective", "project", "group",
   "crew", "players", "brothers", "sisters", "family", "experience"]

/-- The `common_first_names` set of `is_band_like` (verbatim, duplicates
kept; only membership is ever used). -/
def common_first_names : List String :=
  ["john", "james", "michael", "robert", "david", "william", "richard", "thomas",
   "charles", "joseph", "christopher", "daniel", "paul", "mark", "donald", "george",
   "kenneth", "steven", "edward", "brian", "ronald", "anthony", "kevin", "jason",
   "matthew", "gary", "timothy", "jose", "larry", "jeffrey", "frank", "scott",
   "eric", "stephen", "andrew", "raymond", "gregory", "joshua", "jerry", "dennis",
   "walter", "patrick", "peter", "harold", "douglas", "henry", "carl", "arthur",
   "ryan", "roger", "joe", "juan", "jack", "albert", "jonathan", "justin", "terry",
   "gerald", "keith", "samuel", "willie", "ralph", "lawrence", "nicholas", "roy",
   "benjamin", "bruce", "brandon", "adam", "harry", "fred", "wayne", "billy",
   "steve", "louis", "jeremy", "aaron", "randy", "howard", "eugene", "carlos",
   "russell", "bobby", "victor", "martin", "ernest", "phillip", "todd", "jesse",
   "craig", "alan", "shawn", "clarence", "sean", "philip", "chris", "johnny",
   "earl", "jimmy", "antonio", "danny", "bryan", "tony", "luis", "miles", "bruce",
   "neil", "nick", "lou", "chuck", "ian", "alex", "noel", "bobby", "billy"]

/-- `is_band_like(first, last)` : heuristic flag for band-like two-word names. -/
def is_band_like (first last : String) : Bool :=
  let first_low := pyLower first
  let last_low := pyLower last
  if band_terms.contains last_low then true
  else if strEndsWith last_low "s" && !(common_first_names.contains first_low) then true
  else if band_adjectives.contains first_low && !(common_first_names.contains last_low) then true
  else false

/-- `is_valid_two_word(tokens)` : every token matches `[A-Za-z'\-]+$` and
none of them is "the"/"and"/"&". -/
def is_valid_two_word (tokens : List String) : Bool :=
  tokens.all (fun t => t ≠ "" && t.data.all (fun c => c.isAlpha || c.toNat = 39 || c = '-'))
    && !(tokens.any (fun t => ["the", "and", "&"].contains (pyLower t)))

/-- The known name particles of `flip_three_word`. -/
def particles : List String :=
  ["de", "del", "van", "von", "da", "di", "la", "le", "du", "do", "dos", "das", "st"]

/-- Python `s.strip(".")` : drop leading and trailing dots. -/
def stripDotsEnds (s : String) : String :=
  ⟨((s.data.dropWhile (fun c => c = '.')).reverse.dropWhile (fun c => c = '.')).reverse⟩

/-- The flip condition of `flip_three_word`: the middle token (lowered,
dot-stripped) is a single letter, ends with a period, or is a particle. -/
def three_word_flip_cond (middle : String) : Bool :=
  let middle_norm := stripDotsEnds (pyLower middle)
  (middle_norm.data.length == 1) || strEndsWith middle "." || particles.contains middle_norm

/-- `flip_three_word(tokens)` : flip "first middle last" to
"last, first middle" (lowercased) when the middle token qualifies. -/
def flip_three_word (first middle last : String) : Option String :=
  if ["the", "and", "&"].contains (pyLower first) then none
  else if three_word_flip_cond middle then
    some (pyLower (last ++ ", " ++ first ++ " " ++ middle))
  else none

/-- `re.split(r"[/,]", artist_clean)[0].strip()` : the first credited
artist used by `_last_name_first_key`. -/
def first_artist_of (artist_clean : String) : String :=
  pyStrip (beforeSlashComma artist_clean)

/-- The token list `_last_name_first_key` computes for an artist string. -/
def lnf_tokens (artist_clean : String) : List String :=
  pyTokens (first_artist_of artist_clean)

/-- `_last_name_first_key(artist_clean, allow_3, exclude_set, safe_bands)` :
`none` models Python `None`. -/
def _last_name_first_key (artist_clean : String) (allow_3 : Bool) (exclude_set : List String)
    (safe_bands : Bool) : Option String :=
  if exclude_set.contains (_normalize_exclude_name artist_clean) then none
  else
    match lnf_tokens artist_clean with
    | [t0, t1] =>
      if safe_bands && is_band_like t0 t1 then none
      else if !(is_valid_two_word [t0, t1]) then none
      else some (pyLower (t1 ++ ", " ++ t0))
    | [f, m, l] =>
      if allow_3 then flip_three_word f m l
      else some (pyLower (first_artist_of artist_clean))
    | _ => some (pyLower (first_artist_of artist_clean))

/-- The trailing-apostrophe-tolerant article normalization
(`art.rstrip("'")`). -/
def rstripApos (s : String) : String :=
  ⟨(s.data.reverse.dropWhile (fun c => c.toNat = 39)).reverse⟩

/-- The article-matching loop of `strip_articles`: first article whose
"art " or "art'" form prefixes the lowered text wins. -/
def strip_articles_go (t low : String) : List String → String
  | [] => t
  | a :: rest =>
    if strStartsWith low (rstripApos a ++ " ") then
      pyStrip (strDropChars t ((rstripApos a).data.length + 1))
    else if rstripApos a ≠ "" && strStartsWith low (rstripApos a ++ aposStr) then
      pyStrip (strDropChars t ((rstripApos a).data.length + 1))
    else strip_articles_go t low rest

/-- The local `strip_articles(text)` of `make_sort_keys`: strip one
leading article ("the"/"a"/"an" plus cleaned caller extras),
case-insensitively. -/
def strip_articles (extra_articles : List String) (text : String) : String :=
  if text = "" then ""
  else
    let t := pyStrip (normalize_apostrophes text)
    let low := pyLower t
    strip_articles_go t low
      (["the", "a", "an"] ++ (extra_articles.map (fun a => pyLower (pyStrip a))).filter (fun a => a ≠ ""))

/-- `make_sort_keys(artist_display, title, extra_articles, ...)` :
returns `(sort_artist, sort_title)`. -/
def make_sort_keys (artist_display title : String) (extra_articles : List String)
    (last_name_first : Bool := false) (lnf_allow_3 : Bool := false)
    (lnf_exclude : List String := []) (lnf_safe_bands : Bool := false) : String × String :=
  let artist_first := pyStrip (beforeSlashComma artist_display)
  let artist_clean := pyStrip (strip_discogs_numeric_suffix artist_first)
  let sort_artist_base := pyLower (strip_articles extra_articles artist_clean)
  let sort_artist :=
    if last_name_first then
      match _last_name_first_key artist_clean lnf_allow_3 lnf_exclude lnf_safe_bands with
      | some flipped => if flipped ≠ "" then flipped else sort_artist_base
      | none => sort_artist_base
    else sort_artist_base
  (sort_artist, pyLower (strip_articles extra_articles title))

/-! Band-likeness helper facts. -/

theorem is_band_like_of_plural {t0 t1 : String}
    (hs : strEndsWith (pyLower t1) "s" = true)
    (hnc : common_first_names.contains (pyLower t0) = false) :
    is_band_like t0 t1 = true := by
  have hnc2 : pyLower t0 ∉ common_first_names := by simpa using hnc
  simp [is_band_like, hs, hnc]
  exact Or.inr (Or.inl hnc2)

/-- C4: For a two-token artist whose tokens pass `is_valid_two_word`
(alphabetic plus apostrophe/hyphen, none of "the"/"and"/"&") and whose
normalized name is not excluded, under last-name-first with safe-band
mode: when the pair is not judged band-like the key is
"<last>, <first>" lowercased; when the second token ends in "s" and the
first is not a recognized common first name the flip is prevented
(band-like), and the heuristic yields no key.  Concretely,
"Miles Davis" sorts as "davis, miles" and "Beach Boys" stays
"beach boys". -/
theorem lnf_two_word_safe_bands (artist : String) (excl : List String) (allow3 : Bool)
    (t0 t1 : String)
    (hexcl : excl.contains (_normalize_exclude_name artist) = false)
    (htok : lnf_tokens artist = [t0, t1])
    (hvalid : is_valid_two_word [t0, t1] = true) :
    (is_band_like t0 t1 = false →
      _last_name_first_key artist allow3 excl true = some (pyLower (t1 ++ ", " ++ t0)))
    ∧ (strEndsWith (pyLower t1) "s" = true →
        common_first_names.contains (pyLower t0) = false →
        _last_name_first_key artist allow3 excl true = none)
    ∧ (make_sort_keys "Miles Davis" "" [] true false [] true).1 = "davis, miles"
    ∧ (make_sort_keys "Beach Boys" "" [] true false [] true).1 = "beach boys" := by
  refine ⟨?_, ?_, ?_, ?_⟩
  · intro hband
    unfold _last_name_first_key
    rw [hexcl, htok]
    simp [hband, hvalid]
  · intro hs hnc
    unfold _last_name_first_key
    rw [hexcl, htok]
    simp [is_band_like_of_plural hs hnc]
  · decide
  · decide

/-- C4, witness: "Miles Davis" is a valid non-band-like two-token name
and flips to "davis, miles". -/
theorem lnf_two_word_safe_bands_witness :
    _last_name_first_key "Miles Davis" false [] true =
      some (pyLower ("Davis" ++ ", " ++ "Miles")) :=
  (lnf_two_word_safe_bands "Miles Davis" [] false "Miles" "Davis"
    (by decide) (by decide) (by decide)).1 (by decide)

/-- C5: For a three-token artist with last-name-first and the three-word
flip enabled (name not excluded): the key is flipped to
"last, first middle" (lowercased) exactly when the middle token
qualifies (single letter after dot-stripping, ends with a period, or is
a known particle) — provided the first token is not "the"/"and"/"&" —
and when the middle token does not qualify the heuristic yields no key,
leaving the name literal.  Concretely "Ludwig van Beethoven" sorts as
"beethoven, ludwig van". -/
theorem lnf_three_word_flip (artist : String) (excl : List String) (sb : Bool)
    (f m l : String)
    (hexcl : excl.contains (_normalize_exclude_name artist) = false)
    (htok : lnf_tokens artist = [f, m, l]) :
    ((["the", "and", "&"].contains (pyLower f)) = false →
      three_word_flip_cond m = true →
      _last_name_first_key artist true excl sb =
        some (pyLower (l ++ ", " ++ f ++ " " ++ m)))
    ∧ (three_word_flip_cond m = false →
        _last_name_first_key artist true excl sb = none)
    ∧ (make_sort_keys "Ludwig van Beethoven" "" [] true true [] false).1
        = "beethoven, ludwig van" := by
  refine ⟨?_, ?_, ?_⟩
  · intro hf hcond
    unfold _last_name_first_key
    rw [hexcl, htok]
    have hflip : flip_three_word f m l = some (pyLower (l ++ ", " ++ f ++ " " ++ m)) := by
      unfold flip_three_word
      rw [hf, hcond]
      simp
    simp [hflip]
  · intro hcond
    unfold _last_name_first_key
    rw [hexcl, htok]
    by_cases hf : (["the", "and", "&"].contains (pyLower f)) = true
    · have hnone : flip_three_word f m l = none := by
        unfold flip_three_word
        rw [if_pos hf]
      simp [hnone]
    · rw [Bool.not_eq_true] at hf
      have hnone : flip_three_word f m l = none := by
        unfold flip_three_word
        rw [hf, hcond]
        simp
      simp [hnone]
  · decide

/-- C5, witness: "Ludwig van Beethoven" with particle "van" flips. -/
theorem lnf_three_word_flip_witness :
    _last_name_first_key "Ludwig van Beethoven" true [] false =
      some (pyLower ("Beethoven" ++ ", " ++ "Ludwig" ++ " " ++ "van")) :=
  (lnf_three_word_flip "Ludwig van Beethoven" [] false "Ludwig" "van" "Beethoven"
    (by decide) (by decide)).1 (by decide) (by decide)

/-- C6, counterexample: with `lastNameFirst` enabled and the three-word
flip disabled, the three-token artist "The Rolling Stones" falls back to
the literal lowered first-artist string, which retains its leading
article: the artist sort key is "the rolling stones" (it starts with
"the "), not the article-stripped "rolling stones" obtained when
`lastNameFirst` is disabled.  The title key is stripped in both cases. -/
theorem make_sort_keys_article_cex :
    (make_sort_keys "The Rolling Stones" "The Wall" [] true false [] false).1
        = "the rolling stones"
    ∧ strStartsWith "the rolling stones" "the " = true
    ∧ (make_sort_keys "The Rolling Stones" "The Wall" [] false false [] false).1
        = "rolling stones"
    ∧ (make_sort_keys "The Rolling Stones" "The Wall" [] true false [] false).2
        = "wall" := by
  refine ⟨by decide, by decide, by decide, by decide⟩

/-- C6 (amended): the title sort key always has a leading article
stripped (all flag combinations); the artist sort key has it stripped
whenever `lastNameFirst` is disabled; and `strip_articles` does strip a
leading "the " (the first default article) from any text that lowers to
one: the result is the text after the article and its separating space,
stripped.  (When `lastNameFirst` is enabled a nonempty transposition
result is used verbatim and can retain a leading article.) -/
theorem make_sort_keys_article_stripping (a t : String) (extras : List String)
    (a3 sb : Bool) (excl : List String) (s : String)
    (hs : strStartsWith (pyLower (pyStrip (normalize_apostrophes s))) "the " = true) :
    (∀ lnf, (make_sort_keys a t extras lnf a3 excl sb).2
        = pyLower (strip_articles extras t))
    ∧ (make_sort_keys a t extras false a3 excl sb).1
        = pyLower (strip_articles extras
            (pyStrip (strip_discogs_numeric_suffix (pyStrip (beforeSlashComma a)))))
    ∧ strip_articles extras s
        = pyStrip (strDropChars (pyStrip (normalize_apostrophes s)) 4) := by
  refine ⟨fun lnf => rfl, rfl, ?_⟩
  have hne : s ≠ "" := by
    intro h
    subst h
    exact absurd hs (by decide)
  unfold strip_articles
  rw [if_neg hne]
  show strip_articles_go _ _ ("the" :: _) = _
  unfold strip_articles_go
  have hart : rstripApos "the" = "the" := by decide
  rw [hart]
  have happ : ("the" ++ " " : String) = "the " := by decide
  rw [happ, if_pos hs]
  rfl

/-- C6 (amended), witness: title "The Wall" is stripped to "wall" for a
concrete call, and `strip_articles` on "The Wall" yields "Wall". -/
theorem make_sort_keys_article_stripping_witness :
    (make_sort_keys "Miles Davis" "The Wall" [] false false [] false).2
        = pyLower (strip_articles [] "The Wall")
    ∧ strip_articles [] "The Wall"
        = pyStrip (strDropChars (pyStrip (normalize_apostrophes "The Wall")) 4) := by
  have h := make_sort_keys_article_stripping "Miles Davis" "The Wall" [] false false []
    "The Wall" (by decide)
  exact ⟨h.1 false, h.2.2⟩
